import Mathlib

/-!
Verification development for the sentinel rate limiter.

The definitions below are a shallow embedding of the Python sources:

* `src/sentinel/core/strategies/base.py`   — decision record and result enum
* `src/sentinel/core/backends/memory.py`   — the in-memory storage backend
* `src/sentinel/core/strategies/token_bucket.py`
* `src/sentinel/core/strategies/sliding_window.py`
* `src/sentinel/api/middleware.py`         — the HTTP interceptor

Modelling conventions:
* Python floats and timestamps are embedded as rationals (`ℚ`); machine
  time `time.time()` is threaded explicitly as the `now` argument of every
  operation that reads the clock.
* Python `int(x)` truncation toward zero is `pyInt`.
* Python dicts are embedded as functions `String → Option _`.
* A Python function that can raise (the `ZeroDivisionError` of float and
  integer division) is embedded with `Except Unit`.
* The sliding-window strategy stores `member = f"{now}"` strings whose
  scores are the same `now`.  Python's `repr`/`float` round-trip is a
  bijection between floats and these strings, so members are embedded by
  their numeric value (`ℚ`); `float(member)` in the source is then the
  identity.
-/

namespace Sentinel

/-- Python `int(q)`: truncation toward zero. -/
def pyInt (q : ℚ) : ℤ := if 0 ≤ q then ⌊q⌋ else ⌈q⌉

/-- `RateLimitResult` from `strategies/base.py` (the middleware refers to the
same two-valued enum under the name `RateLimitStatus`). -/
inductive RateLimitResult
  | ALLOWED
  | DENIED
deriving DecidableEq, Repr

/-- `RateLimitResponse` from `strategies/base.py`: the immutable decision
record of one `check` call. -/
structure RateLimitResponse where
  result : RateLimitResult
  limit : ℤ
  remaining : ℤ
  reset_at : ℚ
  retry_after : Option ℚ := none
deriving DecidableEq, Repr

/-- The record `{"tokens": float, "last_refill": float}` that the token
bucket stores in `_data`. -/
structure TBVal where
  tokens : ℚ
  last_refill : ℚ
deriving DecidableEq, Repr

/-- `InMemoryBackend` state (`backends/memory.py`): the `_data`,
`_sorted_sets` and `_expiry` dictionaries.  The only record type ever put
into `_data` by this program is the token-bucket mapping `TBVal`.
Sorted-set entries are `(score, member)` pairs. -/
structure InMemoryBackend where
  data : String → Option TBVal
  sorted_sets : String → Option (List (ℚ × ℚ))
  expiry : String → Option ℚ

/-- A freshly constructed `InMemoryBackend()`. -/
def emptyBackend : InMemoryBackend :=
  { data := fun _ => none, sorted_sets := fun _ => none, expiry := fun _ => none }

namespace InMemoryBackend

/-- `_is_expired`: the key has an expiry deadline and `time.time()` is
strictly past it. -/
def is_expired (now : ℚ) (b : InMemoryBackend) (k : String) : Bool :=
  match b.expiry k with
  | some e => decide (e < now)
  | none => false

/-- `_cleanup_if_expired`: remove the key from all three dicts when it is
expired; the `Bool` reports whether a removal happened. -/
def cleanup_if_expired (now : ℚ) (b : InMemoryBackend) (k : String) :
    InMemoryBackend × Bool :=
  if is_expired now b k then
    ({ data := fun x => if x = k then none else b.data x,
       sorted_sets := fun x => if x = k then none else b.sorted_sets x,
       expiry := fun x => if x = k then none else b.expiry x }, true)
  else (b, false)

/-- `get`: expiry check, then `_data.get(key)`. -/
def get (now : ℚ) (b : InMemoryBackend) (k : String) :
    Option TBVal × InMemoryBackend :=
  let p := cleanup_if_expired now b k
  if p.2 then (none, p.1) else (p.1.data k, p.1)

/-- `set`: store the record and set `_expiry[key] = time.time() + ttl`. -/
def set (now : ℚ) (b : InMemoryBackend) (k : String) (v : TBVal) (ttl : ℤ) :
    InMemoryBackend :=
  { b with
    data := fun x => if x = k then some v else b.data x,
    expiry := fun x => if x = k then some (now + (ttl : ℚ)) else b.expiry x }

/-- `delete`: pop the key from all three dicts. -/
def delete (b : InMemoryBackend) (k : String) : InMemoryBackend :=
  { data := fun x => if x = k then none else b.data x,
    sorted_sets := fun x => if x = k then none else b.sorted_sets x,
    expiry := fun x => if x = k then none else b.expiry x }

/-- Stable insertion of an entry into a score-ascending list: the new entry
goes before the first strictly greater score, i.e. after any entries with an
equal score — exactly where Python's stable `list.sort` leaves an element
that was appended last. -/
def insertByScore (e : ℚ × ℚ) : List (ℚ × ℚ) → List (ℚ × ℚ)
  | [] => [e]
  | x :: xs => if e.1 ≤ x.1 then e :: x :: xs else x :: insertByScore e xs

/-- Stable sort by ascending score (insertion sort), extensionally equal to
Python's stable `list.sort(key=lambda x: x[0])`. -/
def sortByScore : List (ℚ × ℚ) → List (ℚ × ℚ)
  | [] => []
  | x :: xs => insertByScore x (sortByScore xs)

/-- `zadd`: cleanup, drop any entry with the same member (score update),
append the new `(score, member)` pair and re-sort by score. -/
def zadd (now : ℚ) (b : InMemoryBackend) (k : String) (score member : ℚ) :
    InMemoryBackend :=
  let b1 := (cleanup_if_expired now b k).1
  let cur := (b1.sorted_sets k).getD []
  let appended := cur.filter (fun e => !decide (e.2 = member)) ++ [(score, member)]
  { b1 with sorted_sets := fun x => if x = k then some (sortByScore appended) else b1.sorted_sets x }

/-- `zremrangebyscore`: cleanup, then keep only entries whose score lies
outside the inclusive `[min_score, max_score]` range; returns the number of
removed entries. -/
def zremrangebyscore (now : ℚ) (b : InMemoryBackend) (k : String)
    (min_score max_score : ℚ) : ℤ × InMemoryBackend :=
  let p := cleanup_if_expired now b k
  if p.2 then (0, p.1) else
  match p.1.sorted_sets k with
  | none => (0, p.1)
  | some items =>
    let kept := items.filter (fun e => !(decide (min_score ≤ e.1) && decide (e.1 ≤ max_score)))
    ((items.length : ℤ) - (kept.length : ℤ),
     { p.1 with sorted_sets := fun x => if x = k then some kept else p.1.sorted_sets x })

/-- `zcard`: cleanup, then the length of the stored list (0 if absent). -/
def zcard (now : ℚ) (b : InMemoryBackend) (k : String) : ℤ × InMemoryBackend :=
  let p := cleanup_if_expired now b k
  if p.2 then (0, p.1) else (((p.1.sorted_sets k).getD []).length, p.1)

/-- Python list slicing `l[a:b]` with unit step: negative indices count from
the end, out-of-range indices are clamped. -/
def pySlice (l : List (ℚ × ℚ)) (a b : ℤ) : List (ℚ × ℚ) :=
  let n : ℤ := l.length
  let a1 := if a < 0 then max 0 (n + a) else min a n
  let b1 := if b < 0 then max 0 (n + b) else min b n
  (l.drop a1.toNat).take (b1 - a1).toNat

/-- `zrange`: cleanup; empty result on absent or empty set; otherwise the
source's index adjustment (negative `start` clamped at 0, negative `stop`
counted from the end) followed by the inclusive-stop slice, returning only
members. -/
def zrange (now : ℚ) (b : InMemoryBackend) (k : String) (start stop : ℤ) :
    List ℚ × InMemoryBackend :=
  let p := cleanup_if_expired now b k
  if p.2 then ([], p.1) else
  match p.1.sorted_sets k with
  | none => ([], p.1)
  | some items =>
    if items.isEmpty then ([], p.1) else
    let n : ℤ := items.length
    let start1 := if start < 0 then max 0 (n + start) else start
    let stop1 := if stop < 0 then n + stop else stop
    ((pySlice items start1 (stop1 + 1)).map (fun e => e.2), p.1)

/-- `expire`: only when the key is in `_data` or `_sorted_sets`, set
`_expiry[key] = time.time() + seconds` (no expiry cleanup first). -/
def expire (now : ℚ) (b : InMemoryBackend) (k : String) (seconds : ℤ) :
    InMemoryBackend :=
  if (b.data k).isSome || (b.sorted_sets k).isSome then
    { b with expiry := fun x => if x = k then some (now + (seconds : ℚ)) else b.expiry x }
  else b

end InMemoryBackend

/-- The refill computation of `TokenBucketStrategy.check` (lines 110-124):
a missing record means a full bucket; otherwise
`min(limit, tokens + (now - last_refill) * refill_rate)` with
`refill_rate = limit / window_seconds` and no clamping of the elapsed
time. -/
def tbRefilled (now : ℚ) (limit window_seconds : ℤ) (state : Option TBVal) : ℚ :=
  match state with
  | none => (limit : ℚ)
  | some st =>
    min (limit : ℚ) (st.tokens + (now - st.last_refill) * ((limit : ℚ) / (window_seconds : ℚ)))

namespace TokenBucketStrategy

/-- `TokenBucketStrategy.check`.  `Except.error` embeds the
`ZeroDivisionError` that Python raises at `limit / window_seconds` when
`window_seconds == 0`, and at `tokens_needed / refill_rate` when
`refill_rate == 0.0`.  The returned backend is the store after the call. -/
def check (now : ℚ) (b : InMemoryBackend) (key : String)
    (limit window_seconds : ℤ) :
    Except Unit (RateLimitResponse × InMemoryBackend) :=
  if window_seconds = 0 then .error () else
  let refill_rate : ℚ := (limit : ℚ) / (window_seconds : ℚ)
  let p := InMemoryBackend.get now b ("tb:" ++ key)
  let current_tokens := tbRefilled now limit window_seconds p.1
  if 1 ≤ current_tokens then
    let new_tokens := current_tokens - 1
    .ok ({ result := .ALLOWED, limit := limit, remaining := pyInt new_tokens,
           reset_at := now + (window_seconds : ℚ) },
         InMemoryBackend.set now p.2 ("tb:" ++ key)
           { tokens := new_tokens, last_refill := now } (window_seconds * 2))
  else if refill_rate = 0 then .error () else
    let retry_after := (1 - current_tokens) / refill_rate
    .ok ({ result := .DENIED, limit := limit, remaining := 0,
           reset_at := now + retry_after, retry_after := some retry_after }, p.2)

/-- `TokenBucketStrategy.reset`: delete the bucket record. -/
def reset (b : InMemoryBackend) (key : String) : InMemoryBackend :=
  InMemoryBackend.delete b ("tb:" ++ key)

end TokenBucketStrategy

namespace SlidingWindowStrategy

/-- `SlidingWindowStrategy._calculate_retry_after`: the score of the oldest
entry via `zrange(key, 0, 0)`; `max(0.1, oldest + window - now)` when an
entry exists, exactly `window_seconds` when the collection is empty. -/
def calculate_retry_after (now : ℚ) (b : InMemoryBackend) (storage_key : String)
    (window_seconds : ℤ) : ℚ :=
  let oldest := (InMemoryBackend.zrange now b storage_key 0 0).1
  match oldest with
  | m :: _ => max (1 / 10) ((m + (window_seconds : ℚ)) - now)
  | [] => (window_seconds : ℚ)

/-- `SlidingWindowStrategy.check`: evict scores in `[0, now - window]`,
count, and either add the entry `(score = now, member = f"{now}")` with a
TTL refresh (ALLOWED) or compute the retry estimate (DENIED). -/
def check (now : ℚ) (b : InMemoryBackend) (key : String)
    (limit window_seconds : ℤ) : RateLimitResponse × InMemoryBackend :=
  let storage_key := "sw:" ++ key
  let window_start := now - (window_seconds : ℚ)
  let b1 := (InMemoryBackend.zremrangebyscore now b storage_key 0 window_start).2
  let q := InMemoryBackend.zcard now b1 storage_key
  if q.1 < limit then
    let b3 := InMemoryBackend.zadd now q.2 storage_key now now
    let b4 := InMemoryBackend.expire now b3 storage_key window_seconds
    ({ result := .ALLOWED, limit := limit, remaining := limit - q.1 - 1,
       reset_at := now + (window_seconds : ℚ) }, b4)
  else
    let retry_after := calculate_retry_after now q.2 storage_key window_seconds
    ({ result := .DENIED, limit := limit, remaining := 0,
       reset_at := now + retry_after, retry_after := some retry_after }, q.2)

/-- `SlidingWindowStrategy.reset`: delete the whole collection. -/
def reset (b : InMemoryBackend) (key : String) : InMemoryBackend :=
  InMemoryBackend.delete b ("sw:" ++ key)

end SlidingWindowStrategy

/-! ## The interceptor (`api/middleware.py`)

The middleware is written against the field names of the draft base module
(`result.status` over the enum it imports as `RateLimitStatus`); the enum
has the same two values, so the decision record above is reused, with its
`result` field playing the `status` role.  The incoming HTTP request is
embedded by the three pieces the middleware reads: the `X-API-Key` header,
the `X-Forwarded-For` header (each `none` when absent) and
`request.client.host` (`none` when `request.client` is `None`).  A header
that is present with an empty value is `some ""`; Python's truthiness test
then treats it like an absent one. -/

/-- The request data consumed by `RateLimitMiddleware`. -/
structure Request where
  api_key : Option String
  forwarded_for : Option String
  client : Option String
deriving DecidableEq, Repr

/-- JSON values appearing in the 429 response body. -/
inductive Json
  | str (s : String)
  | num (q : ℚ)
  | null
deriving DecidableEq, Repr

/-- An HTTP response: status code, header dict (as an ordered key-value
list) and, for the middleware's `JSONResponse`, the JSON object body. -/
structure HttpResponse where
  status_code : ℤ
  headers : List (String × String)
  body : List (String × Json)
deriving DecidableEq, Repr

/-- Python dict assignment `headers[k] = v` on the ordered key-value list:
overwrite an existing key or append. -/
def setHeader (hs : List (String × String)) (k v : String) :
    List (String × String) :=
  if hs.any (fun p => p.1 == k) then
    hs.map (fun p => if p.1 = k then (k, v) else p)
  else hs ++ [(k, v)]

/-- Python `s.split(',')[0]`: the substring before the first comma (the
whole string when there is no comma). -/
def pySplitFirst (s : String) : String :=
  (s.splitOn ",").headD ""

namespace RateLimitMiddleware

/-- `RateLimitMiddleware._get_client_key`: the walrus-`if` chain.  Python's
`headers.get` returns `None` for an absent header, and both `None` and the
empty string are falsy, hence the `getD "" ≠ ""` tests. -/
def get_client_key (r : Request) : String :=
  let api_key := r.api_key.getD ""
  if api_key ≠ "" then "api:" ++ api_key
  else
    let forwarded := r.forwarded_for.getD ""
    if forwarded ≠ "" then "ip:" ++ pySplitFirst forwarded
    else "ip:" ++ (match r.client with | some host => host | none => "unknown")

/-- `result.retry_after or 1`: Python `or` takes the right operand when the
left is `None` or `0.0`. -/
def retryAfterOrOne (o : Option ℚ) : ℚ :=
  match o with
  | none => 1
  | some r => if r = 0 then 1 else r

/-- `RateLimitMiddleware.dispatch`.  The strategy dependency is the
injected `check` function; the `await strategy.check` call is the single
point that can raise a storage transport error, embedded as the `Except`
error of `check`, which `dispatch` does not catch.  `downstream` is the
response `call_next` would produce. -/
def dispatch (check : String → ℤ → ℤ → Except String RateLimitResponse)
    (limit window : ℤ) (request : Request) (downstream : HttpResponse) :
    Except String HttpResponse :=
  let client_key := get_client_key request
  match check client_key limit window with
  | .error e => .error e
  | .ok result =>
    let headers : List (String × String) :=
      [("X-RateLimit-Limit", toString result.limit),
       ("X-RateLimit-Remaining", toString result.remaining),
       ("X-RateLimit-Reset", toString (pyInt result.reset_at))]
    if result.result = .DENIED then
      let headers2 := setHeader headers "Retry-After"
        (toString (pyInt (retryAfterOrOne result.retry_after)))
      .ok { status_code := 429,
            headers := headers2,
            body := [("error", Json.str "rate_limit_exceeded"),
                     ("message", Json.str "Too many requests. Please slow down."),
                     ("retry_after",
                      match result.retry_after with
                      | none => Json.null
                      | some r => Json.num r)] }
    else
      .ok { downstream with
            headers := headers.foldl (fun acc p => setHeader acc p.1 p.2) downstream.headers }

end RateLimitMiddleware

/-! ## Extractors and helper lemmas -/

/-- The decision record of a token-bucket call, `none` when the call
raised. -/
def respOfExcept (r : Except Unit (RateLimitResponse × InMemoryBackend)) :
    Option RateLimitResponse :=
  match r with
  | .ok p => some p.1
  | .error _ => none

/-- The stored record at a key after a token-bucket call, `none` when the
call raised. -/
def dataAfterExcept (r : Except Unit (RateLimitResponse × InMemoryBackend))
    (k : String) : Option (Option TBVal) :=
  match r with
  | .ok p => some (p.2.data k)
  | .error _ => none

/-- Whether a token-bucket call raised `ZeroDivisionError`. -/
def isZeroDivError (r : Except Unit (RateLimitResponse × InMemoryBackend)) : Bool :=
  match r with
  | .error _ => true
  | .ok _ => false

/-- The response of a dispatch call, `none` when the transport error
propagated. -/
def httpOf (r : Except String HttpResponse) : Option HttpResponse :=
  match r with
  | .ok h => some h
  | .error _ => none

theorem sw_key_k : ("sw:" ++ "k" : String) = "sw:k" := rfl

theorem tb_key_k : ("tb:" ++ "k" : String) = "tb:k" := rfl

/-! ## Claim C1 -/

/-- One `SlidingWindowStrategy.check` call with `limit = 2`,
`window_seconds = 60` at timestamp `now = 0`. -/
def c1Step (b : InMemoryBackend) : RateLimitResponse × InMemoryBackend :=
  SlidingWindowStrategy.check 0 b "k" 2 60

/-- C1: the claim says that with limit 2 and window 60 at most 2 calls in
any 60-second interval return ALLOWED, and that each ALLOWED call adds an
entry with a member unique within the window so that the stored count
equals the number of ALLOWED decisions.  The code violates both parts:
`check` uses the bare timestamp string as the `zadd` member, so three
calls at the same timestamp all return ALLOWED (the second and third
`zadd` overwrite the same member) and the stored count stays 1. -/
theorem C1_same_timestamp_requests_collapse :
    (c1Step emptyBackend).1.result = .ALLOWED ∧
    (c1Step (c1Step emptyBackend).2).1.result = .ALLOWED ∧
    (c1Step (c1Step (c1Step emptyBackend).2).2).1.result = .ALLOWED ∧
    (InMemoryBackend.zcard 0 (c1Step (c1Step (c1Step emptyBackend).2).2).2 "sw:k").1 = 1 := by
  norm_num [c1Step, SlidingWindowStrategy.check, SlidingWindowStrategy.calculate_retry_after,
    InMemoryBackend.zremrangebyscore, InMemoryBackend.zcard, InMemoryBackend.zadd,
    InMemoryBackend.zrange, InMemoryBackend.expire, InMemoryBackend.cleanup_if_expired,
    InMemoryBackend.is_expired, InMemoryBackend.sortByScore, InMemoryBackend.insertByScore,
    InMemoryBackend.pySlice, emptyBackend, List.filter, sw_key_k]

/-! ## Claim C2 -/

/-- A store holding the bucket record `{tokens: 0, last_refill: 0}` at
`tb:k`. -/
def c2_bEx : InMemoryBackend :=
  { data := fun k => if k = "tb:k" then some ⟨0, 0⟩ else none,
    sorted_sets := fun _ => none, expiry := fun _ => none }

/-- The decision the token bucket produces on `c2_bEx` at `now = 10` with
limit 5, window 60: refilled tokens `5/6 < 1`, so DENIED with
`retry_after = (1 - 5/6) / (5/60) = 2`. -/
def c2_resp : RateLimitResponse :=
  { result := .DENIED, limit := 5, remaining := 0, reset_at := 12, retry_after := some 2 }

/-- C2: the claim says a DENIED token-bucket call persists the
refreshed-but-not-consumed state with `last_refill = now` before
returning.  The code's DENIED branch writes nothing: at `now = 10` on a
store holding `{tokens: 0, last_refill: 0}` the call returns DENIED and
the stored record still has `last_refill = 0 ≠ 10 = now`. -/
theorem C2_denied_state_not_persisted_cex :
    respOfExcept (TokenBucketStrategy.check 10 c2_bEx "k" 5 60) = some c2_resp ∧
    dataAfterExcept (TokenBucketStrategy.check 10 c2_bEx "k" 5 60) "tb:k" =
      some (some ⟨0, 0⟩) ∧
    (TBVal.mk 0 0).last_refill ≠ (10 : ℚ) := by
  norm_num [TokenBucketStrategy.check, tbRefilled, InMemoryBackend.get,
    InMemoryBackend.cleanup_if_expired, InMemoryBackend.is_expired, c2_bEx, c2_resp,
    tb_key_k, respOfExcept, dataAfterExcept, min_def]

/-- C2 (amended): when a token-bucket `check` returns DENIED, nothing is
written — the resulting store is exactly the store as left by the read
(`get`) step — and the decision carries `remaining = 0`,
`retry_after = (1 - tokens) / refill_rate` over the refilled token count,
and `reset_at = now + retry_after`. -/
theorem C2_denied_no_write_amended (now : ℚ) (b : InMemoryBackend) (key : String)
    (L W : ℤ) (resp : RateLimitResponse) (b2 : InMemoryBackend)
    (h : TokenBucketStrategy.check now b key L W = .ok (resp, b2))
    (hd : resp.result = .DENIED) :
    b2 = (InMemoryBackend.get now b ("tb:" ++ key)).2 ∧
    resp.remaining = 0 ∧
    resp.retry_after =
      some ((1 - tbRefilled now L W (InMemoryBackend.get now b ("tb:" ++ key)).1) /
        ((L : ℚ) / (W : ℚ))) ∧
    resp.reset_at = now +
      ((1 - tbRefilled now L W (InMemoryBackend.get now b ("tb:" ++ key)).1) /
        ((L : ℚ) / (W : ℚ))) := by
  by_cases hW : W = 0
  · simp [TokenBucketStrategy.check, hW] at h
  · simp only [TokenBucketStrategy.check, if_neg hW] at h
    split_ifs at h with hc hr
    · rw [Except.ok.injEq, Prod.mk.injEq] at h
      rw [← h.1] at hd
      simp at hd
    · rw [Except.ok.injEq, Prod.mk.injEq] at h
      obtain ⟨h1, h2⟩ := h
      subst h1; subst h2
      exact ⟨rfl, rfl, rfl, rfl⟩

/-- C2 witness: the amended statement instantiated on `c2_bEx` at
`now = 10`, limit 5, window 60. -/
theorem C2_denied_no_write_amended_witness :
    (TokenBucketStrategy.check 10 c2_bEx "k" 5 60 = .ok (c2_resp, c2_bEx) ∧
      c2_resp.result = .DENIED) ∧
    (c2_bEx = (InMemoryBackend.get 10 c2_bEx "tb:k").2 ∧
      c2_resp.remaining = 0 ∧
      c2_resp.retry_after =
        some ((1 - tbRefilled 10 5 60 (InMemoryBackend.get 10 c2_bEx "tb:k").1) /
          (((5 : ℤ) : ℚ) / ((60 : ℤ) : ℚ))) ∧
      c2_resp.reset_at = 10 +
        ((1 - tbRefilled 10 5 60 (InMemoryBackend.get 10 c2_bEx "tb:k").1) /
          (((5 : ℤ) : ℚ) / ((60 : ℤ) : ℚ)))) := by
  have h : TokenBucketStrategy.check 10 c2_bEx "k" 5 60 = .ok (c2_resp, c2_bEx) := by
    norm_num [TokenBucketStrategy.check, tbRefilled, InMemoryBackend.get,
      InMemoryBackend.cleanup_if_expired, InMemoryBackend.is_expired, c2_bEx, c2_resp,
      tb_key_k, min_def]
  have h2 := C2_denied_no_write_amended 10 c2_bEx "k" 5 60 c2_resp c2_bEx h rfl
  exact ⟨⟨h, rfl⟩, by rw [tb_key_k] at h2; exact h2⟩

/-! ## Claim C5 -/

/-- C5: the claim says `elapsed` is clamped at zero so the refilled token
count is never below the stored count.  The code computes
`elapsed = now - last_refill` with no clamp: for a stored state with
`last_refill = 10` in the future of `now = 0` (limit 10, window 10) the
refill step yields `min(10, 5 + (-10)·1) = -5`, strictly below the stored
5 tokens. -/
theorem C5_future_last_refill_cex :
    tbRefilled 0 10 10 (some ⟨5, 10⟩) = -5 ∧
    tbRefilled 0 10 10 (some ⟨5, 10⟩) < (TBVal.mk 5 10).tokens := by
  norm_num [tbRefilled, min_def]

/-- C5 (amended): the code does not clamp `elapsed`; for any stored state
whose `last_refill` is not in the future of `now` (and whose token count
does not exceed the limit) the refilled count
`min(limit, tokens + elapsed × refill_rate)` is at least the stored count,
while a `last_refill` in the future can make it strictly smaller. -/
theorem C5_refill_monotone_amended (now : ℚ) (L W : ℤ) (st : TBVal)
    (hL : 1 ≤ L) (hW : 1 ≤ W) (hlr : st.last_refill ≤ now)
    (htok : st.tokens ≤ (L : ℚ)) :
    st.tokens ≤ tbRefilled now L W (some st) := by
  unfold tbRefilled
  refine le_min htok ?_
  have h1 : 0 ≤ now - st.last_refill := by linarith
  have hLQ : (0 : ℚ) ≤ (L : ℚ) := by exact_mod_cast (by omega : (0 : ℤ) ≤ L)
  have hWQ : (0 : ℚ) ≤ (W : ℚ) := by exact_mod_cast (by omega : (0 : ℤ) ≤ W)
  have h2 : (0 : ℚ) ≤ (L : ℚ) / (W : ℚ) := div_nonneg hLQ hWQ
  nlinarith

/-- C5 witness: the amended statement at `now = 5` on the state
`{tokens: 3, last_refill: 0}` with limit 10, window 10. -/
theorem C5_refill_monotone_amended_witness :
    ((1 : ℤ) ≤ 10 ∧ (TBVal.mk 3 0).last_refill ≤ (5 : ℚ) ∧
      (TBVal.mk 3 0).tokens ≤ ((10 : ℤ) : ℚ)) ∧
    (TBVal.mk 3 0).tokens ≤ tbRefilled 5 10 10 (some ⟨3, 0⟩) := by
  refine ⟨⟨by norm_num, by norm_num, by norm_num⟩, ?_⟩
  exact C5_refill_monotone_amended 5 10 10 ⟨3, 0⟩ (by norm_num) (by norm_num)
    (by norm_num) (by norm_num)

/-! ## Claim C9 -/

/-- C9: the claim says a `check` call with `limit ≤ 0` or `window ≤ 0` is
refused rather than producing a decision, and that the `limit / window`
division never divides by zero.  The code performs no validation: the
sliding window at limit 0 and the token bucket at limit -3 both return
DENIED decisions (the latter with a negative `retry_after`), and the token
bucket at window 0 raises `ZeroDivisionError` at the `refill_rate`
division. -/
theorem C9_no_validation_cex :
    (SlidingWindowStrategy.check 0 emptyBackend "k" 0 60).1 =
      { result := .DENIED, limit := 0, remaining := 0, reset_at := 60,
        retry_after := some 60 } ∧
    respOfExcept (TokenBucketStrategy.check 0 emptyBackend "k" (-3) 60) =
      some { result := .DENIED, limit := -3, remaining := 0, reset_at := -80,
             retry_after := some (-80) } ∧
    isZeroDivError (TokenBucketStrategy.check 0 emptyBackend "k" 5 0) = true := by
  refine ⟨?_, ?_, rfl⟩
  · norm_num [SlidingWindowStrategy.check, SlidingWindowStrategy.calculate_retry_after,
      InMemoryBackend.zremrangebyscore, InMemoryBackend.zcard, InMemoryBackend.zrange,
      InMemoryBackend.cleanup_if_expired, InMemoryBackend.is_expired, emptyBackend, sw_key_k]
  · norm_num [TokenBucketStrategy.check, tbRefilled, InMemoryBackend.get,
      InMemoryBackend.cleanup_if_expired, InMemoryBackend.is_expired, emptyBackend,
      tb_key_k, respOfExcept]

/-- C9 (amended): neither strategy validates its parameters.  The token
bucket raises `ZeroDivisionError` whenever `window = 0` and, on a fresh
store, also when `limit = 0` (the `retry_after` division); with
`limit < 0` and `window ≥ 1` it returns a DENIED decision, and the sliding
window returns a DENIED decision for any `limit ≤ 0` with `window ≥ 1`. -/
theorem C9_no_validation_amended :
    (∀ (now : ℚ) (b : InMemoryBackend) (key : String) (L : ℤ),
      TokenBucketStrategy.check now b key L 0 = .error ()) ∧
    (∀ (now : ℚ) (key : String) (L W : ℤ), L ≤ 0 → 1 ≤ W →
      (SlidingWindowStrategy.check now emptyBackend key L W).1.result = .DENIED) ∧
    (∀ (now : ℚ) (key : String) (L W : ℤ), L < 0 → 1 ≤ W →
      ∃ resp, respOfExcept (TokenBucketStrategy.check now emptyBackend key L W) =
        some resp ∧ resp.result = .DENIED) ∧
    (∀ (now : ℚ) (key : String) (W : ℤ), 1 ≤ W →
      TokenBucketStrategy.check now emptyBackend key 0 W = .error ()) := by
  refine ⟨?_, ?_, ?_, ?_⟩
  · intro now b key L
    simp [TokenBucketStrategy.check]
  · intro now key L W hL hW
    have hnl : ¬ ((0 : ℤ) < L) := not_lt.mpr hL
    simp [SlidingWindowStrategy.check, InMemoryBackend.zremrangebyscore,
      InMemoryBackend.cleanup_if_expired, InMemoryBackend.is_expired,
      InMemoryBackend.zcard, emptyBackend, hnl]
  · intro now key L W hL hW
    have hW0 : W ≠ 0 := by omega
    have hc : ¬ ((1 : ℚ) ≤
        tbRefilled now L W (InMemoryBackend.get now emptyBackend ("tb:" ++ key)).1) := by
      have h0 : (InMemoryBackend.get now emptyBackend ("tb:" ++ key)).1 = none := rfl
      rw [h0]
      unfold tbRefilled
      push_neg
      have : (L : ℚ) < 0 := by exact_mod_cast hL
      linarith
    have hr : ¬ (((L : ℚ) / (W : ℚ)) = 0) := by
      apply div_ne_zero
      · exact_mod_cast (by omega : L ≠ 0)
      · exact_mod_cast hW0
    simp only [TokenBucketStrategy.check, if_neg hW0, if_neg hc, if_neg hr]
    exact ⟨_, rfl, rfl⟩
  · intro now key W hW
    have hW0 : W ≠ 0 := by omega
    have hc : ¬ ((1 : ℚ) ≤
        tbRefilled now 0 W (InMemoryBackend.get now emptyBackend ("tb:" ++ key)).1) := by
      have h0 : (InMemoryBackend.get now emptyBackend ("tb:" ++ key)).1 = none := rfl
      rw [h0]
      unfold tbRefilled
      norm_num
    simp only [TokenBucketStrategy.check, if_neg hW0, if_neg hc]
    norm_num

/-- C9 witness: the amended statement instantiated at window 0, at sliding
window limit 0, at token-bucket limit -3, and at token-bucket limit 0. -/
theorem C9_no_validation_amended_witness :
    TokenBucketStrategy.check 0 emptyBackend "k" 5 0 = .error () ∧
    ((0 : ℤ) ≤ 0 ∧ (SlidingWindowStrategy.check 0 emptyBackend "k" 0 60).1.result = .DENIED) ∧
    ((-3 : ℤ) < 0 ∧ (∃ resp,
      respOfExcept (TokenBucketStrategy.check 0 emptyBackend "k" (-3) 60) = some resp ∧
      resp.result = .DENIED)) ∧
    TokenBucketStrategy.check 0 emptyBackend "k" 0 60 = .error () := by
  refine ⟨C9_no_validation_amended.1 0 emptyBackend "k" 5,
    ⟨by norm_num, C9_no_validation_amended.2.1 0 "k" 0 60 (by norm_num) (by norm_num)⟩,
    ⟨by norm_num, C9_no_validation_amended.2.2.1 0 "k" (-3) 60 (by norm_num) (by norm_num)⟩,
    C9_no_validation_amended.2.2.2 0 "k" 60 (by norm_num)⟩

/-! ## Claim C3 -/

/-- A request with only a peer address, and a plain downstream response. -/
def c3_req : Request := ⟨none, none, some "1.2.3.4"⟩

/-- The downstream response of C3's scenario. -/
def c3_downstream : HttpResponse := ⟨200, [], []⟩

/-- C3: the claim says that when the strategy's `check` fails with a
storage transport error, the interceptor forwards the request downstream
unmodified (fail-open) instead of propagating the error.  The code has no
handler around the `await strategy.check` call: with a strategy whose
check errors, `dispatch` produces no response at all — the error
propagates — and in particular does not forward the downstream
response. -/
theorem C3_fail_open_cex :
    httpOf (RateLimitMiddleware.dispatch (fun _ _ _ => .error "connection lost")
      5 60 c3_req c3_downstream) = none ∧
    RateLimitMiddleware.dispatch (fun _ _ _ => .error "connection lost")
      5 60 c3_req c3_downstream ≠ .ok c3_downstream := by
  refine ⟨rfl, ?_⟩
  intro hcontra
  exact Except.noConfusion
    (show (Except.error "connection lost" : Except String HttpResponse) =
      .ok c3_downstream from hcontra)

/-- C3 (amended): the interceptor does not catch the storage transport
error; a failing `check` makes `dispatch` propagate the error unchanged —
the request is neither forwarded downstream nor answered with a 429. -/
theorem C3_transport_error_propagates_amended (e : String) (L W : ℤ)
    (req : Request) (d : HttpResponse) :
    RateLimitMiddleware.dispatch (fun _ _ _ => .error e) L W req d = .error e := rfl

/-! ## Claim C4 -/

/-- The decision-record invariants of spec §8: remaining within
`[0, limit]`, `reset_at` in the future of the call, and on DENIED a zero
`remaining` with a positive `retry_after`. -/
def decisionOK (now : ℚ) (L : ℤ) (resp : RateLimitResponse) : Prop :=
  0 ≤ resp.remaining ∧ resp.remaining ≤ L ∧ now < resp.reset_at ∧
  (resp.result = .DENIED → resp.remaining = 0 ∧
    ∃ r, resp.retry_after = some r ∧ 0 < r)

theorem zcard_fst_nonneg (now : ℚ) (b : InMemoryBackend) (k : String) :
    0 ≤ (InMemoryBackend.zcard now b k).1 := by
  unfold InMemoryBackend.zcard
  dsimp only
  split_ifs
  · exact le_refl 0
  · exact Int.ofNat_nonneg _

theorem tbRefilled_le (now : ℚ) (L W : ℤ) (st : Option TBVal) :
    tbRefilled now L W st ≤ (L : ℚ) := by
  unfold tbRefilled
  cases st with
  | none => exact le_refl _
  | some st => exact min_le_left _ _

theorem calculate_retry_after_pos (now : ℚ) (b : InMemoryBackend) (k : String)
    (W : ℤ) (hW : 1 ≤ W) :
    0 < SlidingWindowStrategy.calculate_retry_after now b k W := by
  unfold SlidingWindowStrategy.calculate_retry_after
  have hWQ : (0 : ℚ) < (W : ℚ) := by exact_mod_cast (by omega : (0 : ℤ) < W)
  cases (InMemoryBackend.zrange now b k 0 0).1 with
  | nil => exact hWQ
  | cons m t =>
    exact lt_of_lt_of_le (by norm_num) (le_max_left (1 / 10) ((m + (W : ℚ)) - now))

/-- C4: for both strategies, a `check` call with `limit ≥ 1` and
`window ≥ 1` on any stored state yields a decision with
`0 ≤ remaining ≤ limit` and `reset_at` in the future of the call, and a
DENIED decision carries `remaining = 0` and a positive `retry_after`. -/
theorem C4_decision_invariants (b : InMemoryBackend) (key : String) (L W : ℤ)
    (now : ℚ) (hL : 1 ≤ L) (hW : 1 ≤ W) :
    (∀ resp b2, TokenBucketStrategy.check now b key L W = .ok (resp, b2) →
      decisionOK now L resp) ∧
    (∀ resp b2, SlidingWindowStrategy.check now b key L W = (resp, b2) →
      decisionOK now L resp) := by
  have hWQ : (0 : ℚ) < (W : ℚ) := by exact_mod_cast (by omega : (0 : ℤ) < W)
  have hLQ : (0 : ℚ) < (L : ℚ) := by exact_mod_cast (by omega : (0 : ℤ) < L)
  constructor
  · intro resp b2 h
    have hW0 : W ≠ 0 := by omega
    simp only [TokenBucketStrategy.check, if_neg hW0] at h
    have hcurle := tbRefilled_le now L W (InMemoryBackend.get now b ("tb:" ++ key)).1
    split_ifs at h with hc hr
    · rw [Except.ok.injEq, Prod.mk.injEq] at h
      obtain ⟨h1, _⟩ := h
      subst h1
      have h0 : (0 : ℚ) ≤
          tbRefilled now L W (InMemoryBackend.get now b ("tb:" ++ key)).1 - 1 := by
        linarith
      refine ⟨?_, ?_, by simpa using hWQ, by intro hd; simp at hd⟩
      · simp only [pyInt, if_pos h0]
        exact Int.floor_nonneg.mpr h0
      · simp only [pyInt, if_pos h0]
        have hfl := Int.floor_le
          (tbRefilled now L W (InMemoryBackend.get now b ("tb:" ++ key)).1 - 1)
        have : ((⌊tbRefilled now L W (InMemoryBackend.get now b ("tb:" ++ key)).1 - 1⌋ :
            ℤ) : ℚ) ≤ (L : ℚ) := by linarith
        exact_mod_cast this
    · rw [Except.ok.injEq, Prod.mk.injEq] at h
      obtain ⟨h1, _⟩ := h
      subst h1
      have hrate : (0 : ℚ) < (L : ℚ) / (W : ℚ) := div_pos hLQ hWQ
      have hretry : (0 : ℚ) <
          (1 - tbRefilled now L W (InMemoryBackend.get now b ("tb:" ++ key)).1) /
            ((L : ℚ) / (W : ℚ)) := by
        apply div_pos _ hrate
        push_neg at hc
        linarith
      refine ⟨?_, ?_, ?_, ?_⟩ <;> dsimp only
      · exact le_refl 0
      · omega
      · linarith
      · intro _
        exact ⟨rfl, _, rfl, hretry⟩
  · intro resp b2 h
    simp only [SlidingWindowStrategy.check] at h
    have hcnt0 := zcard_fst_nonneg now
      (InMemoryBackend.zremrangebyscore now b ("sw:" ++ key) 0
        (now - (W : ℚ))).2 ("sw:" ++ key)
    split_ifs at h with hcnt
    · rw [Prod.mk.injEq] at h
      obtain ⟨h1, _⟩ := h
      subst h1
      refine ⟨?_, ?_, ?_, ?_⟩ <;> dsimp only
      · omega
      · omega
      · linarith
      · intro hd
        simp at hd
    · rw [Prod.mk.injEq] at h
      obtain ⟨h1, _⟩ := h
      subst h1
      have hr := calculate_retry_after_pos now
        (InMemoryBackend.zcard now
          (InMemoryBackend.zremrangebyscore now b ("sw:" ++ key) 0
            (now - (W : ℚ))).2 ("sw:" ++ key)).2 ("sw:" ++ key) W hW
      refine ⟨?_, ?_, ?_, ?_⟩ <;> dsimp only
      · exact le_refl 0
      · omega
      · linarith
      · intro _
        exact ⟨rfl, _, rfl, hr⟩

/-- C4 witness: the invariants instantiated on a fresh store with limit 3,
window 60 at `now = 0`; the token bucket returns ALLOWED with remaining 2,
and the sliding window's decision satisfies the same predicate. -/
theorem C4_decision_invariants_witness :
    ((1 : ℤ) ≤ 3 ∧ (1 : ℤ) ≤ 60) ∧
    decisionOK 0 3
      { result := .ALLOWED, limit := 3, remaining := 2, reset_at := 60,
        retry_after := none } ∧
    decisionOK 0 3 (SlidingWindowStrategy.check 0 emptyBackend "k" 3 60).1 := by
  have hmain := C4_decision_invariants emptyBackend "k" 3 60 0 (by norm_num) (by norm_num)
  have hTB : TokenBucketStrategy.check 0 emptyBackend "k" 3 60 =
      .ok ({ result := .ALLOWED, limit := 3, remaining := 2, reset_at := 60,
             retry_after := none },
           InMemoryBackend.set 0 emptyBackend "tb:k" ⟨2, 0⟩ 120) := by
    norm_num [TokenBucketStrategy.check, tbRefilled, InMemoryBackend.get,
      InMemoryBackend.cleanup_if_expired, InMemoryBackend.is_expired, emptyBackend,
      pyInt, tb_key_k]
  exact ⟨⟨by norm_num, by norm_num⟩, hmain.1 _ _ hTB, hmain.2 _ _ rfl⟩

/-! ## Claim C6 -/

theorem delete_idem (b : InMemoryBackend) (k : String) :
    InMemoryBackend.delete (InMemoryBackend.delete b k) k =
      InMemoryBackend.delete b k := by
  unfold InMemoryBackend.delete
  congr 1 <;> funext x <;> by_cases hx : x = k <;> simp [hx]

theorem pyInt_intCast_sub_one (L : ℤ) (hL : 1 ≤ L) :
    pyInt ((L : ℚ) - 1) = L - 1 := by
  have h0 : (0 : ℚ) ≤ (L : ℚ) - 1 := by
    have : (1 : ℚ) ≤ (L : ℚ) := by exact_mod_cast hL
    linarith
  have hcast : (L : ℚ) - 1 = ((L - 1 : ℤ) : ℚ) := by push_cast; ring
  rw [pyInt, if_pos h0, hcast, Int.floor_intCast]

/-- C6: for both strategies with `limit ≥ 1` and `window ≥ 1`, a `reset`
followed by a `check` returns ALLOWED with `remaining = limit - 1`, and
`reset` is idempotent, so repeating it before the check yields the same
decision. -/
theorem C6_reset_then_check (b : InMemoryBackend) (key : String) (L W : ℤ)
    (now : ℚ) (hL : 1 ≤ L) (hW : 1 ≤ W) :
    (∃ b2, TokenBucketStrategy.check now (TokenBucketStrategy.reset b key) key L W =
      .ok ({ result := .ALLOWED, limit := L, remaining := L - 1,
             reset_at := now + (W : ℚ), retry_after := none }, b2)) ∧
    TokenBucketStrategy.reset (TokenBucketStrategy.reset b key) key =
      TokenBucketStrategy.reset b key ∧
    (SlidingWindowStrategy.check now (SlidingWindowStrategy.reset b key) key L W).1 =
      { result := .ALLOWED, limit := L, remaining := L - 1,
        reset_at := now + (W : ℚ), retry_after := none } ∧
    SlidingWindowStrategy.reset (SlidingWindowStrategy.reset b key) key =
      SlidingWindowStrategy.reset b key := by
  have hW0 : W ≠ 0 := by omega
  have hL0 : (0 : ℤ) < L := by omega
  have hLQ : (1 : ℚ) ≤ (L : ℚ) := by exact_mod_cast hL
  refine ⟨⟨InMemoryBackend.set now (TokenBucketStrategy.reset b key) ("tb:" ++ key)
      ⟨(L : ℚ) - 1, now⟩ (W * 2), ?_⟩,
    delete_idem b ("tb:" ++ key), ?_, delete_idem b ("sw:" ++ key)⟩
  · have hget : InMemoryBackend.get now (TokenBucketStrategy.reset b key)
        ("tb:" ++ key) = (none, TokenBucketStrategy.reset b key) := by
      simp [InMemoryBackend.get, InMemoryBackend.cleanup_if_expired,
        InMemoryBackend.is_expired, TokenBucketStrategy.reset, InMemoryBackend.delete]
    simp only [TokenBucketStrategy.check, if_neg hW0, hget]
    simp only [tbRefilled]
    rw [if_pos hLQ, pyInt_intCast_sub_one L hL]
  · simp [SlidingWindowStrategy.check, SlidingWindowStrategy.reset,
      InMemoryBackend.zremrangebyscore, InMemoryBackend.zcard,
      InMemoryBackend.cleanup_if_expired, InMemoryBackend.is_expired,
      InMemoryBackend.delete, hL0]

/-- C6 witness: the statement instantiated at limit 3, window 60,
`now = 0` on a fresh store. -/
theorem C6_reset_then_check_witness :
    ((1 : ℤ) ≤ 3 ∧ (1 : ℤ) ≤ 60) ∧
    ((∃ b2, TokenBucketStrategy.check 0 (TokenBucketStrategy.reset emptyBackend "k") "k" 3 60 =
      .ok ({ result := .ALLOWED, limit := 3, remaining := 3 - 1,
             reset_at := 0 + ((60 : ℤ) : ℚ), retry_after := none }, b2)) ∧
    TokenBucketStrategy.reset (TokenBucketStrategy.reset emptyBackend "k") "k" =
      TokenBucketStrategy.reset emptyBackend "k" ∧
    (SlidingWindowStrategy.check 0 (SlidingWindowStrategy.reset emptyBackend "k") "k" 3 60).1 =
      { result := .ALLOWED, limit := 3, remaining := 3 - 1,
        reset_at := 0 + ((60 : ℤ) : ℚ), retry_after := none } ∧
    SlidingWindowStrategy.reset (SlidingWindowStrategy.reset emptyBackend "k") "k" =
      SlidingWindowStrategy.reset emptyBackend "k") :=
  ⟨⟨by norm_num, by norm_num⟩,
    C6_reset_then_check emptyBackend "k" 3 60 0 (by norm_num) (by norm_num)⟩

/-! ## Claim C7 -/

/-- A request carrying only a peer address, for the C7 scenario. -/
def c7_req : Request := ⟨none, none, some "8.8.8.8"⟩

/-- The downstream response of the C7 scenario (never reached on a
denial). -/
def c7_downstream : HttpResponse := ⟨200, [], []⟩

/-- A DENIED decision with a fractional `retry_after` of one half. -/
def c7_res : RateLimitResponse :=
  { result := .DENIED, limit := 5, remaining := 0, reset_at := 10,
    retry_after := some (1 / 2) }

/-- C7: the claim says a denial is answered with a `Retry-After` header of
`max(1, ceil(retry_after))` and a JSON body containing the client's tier.
The code writes `str(int(retry_after or 1))` — truncation, not a ceiling
with a floor of one — and its body has no tier field: with
`retry_after = 1/2` the header is "0" while `max(1, ceil(1/2))` is 1, and
no body key is "tier". -/
theorem C7_denial_response_cex :
    httpOf (RateLimitMiddleware.dispatch (fun _ _ _ => .ok c7_res) 5 60
        c7_req c7_downstream) =
      some { status_code := 429,
             headers := [("X-RateLimit-Limit", "5"), ("X-RateLimit-Remaining", "0"),
                         ("X-RateLimit-Reset", "10"), ("Retry-After", "0")],
             body := [("error", Json.str "rate_limit_exceeded"),
                      ("message", Json.str "Too many requests. Please slow down."),
                      ("retry_after", Json.num (1 / 2))] } ∧
    toString (max 1 ⌈(1 : ℚ) / 2⌉) = "1" ∧
    ("0" : String) ≠ "1" ∧
    (∀ p ∈ [("error", Json.str "rate_limit_exceeded"),
            ("message", Json.str "Too many requests. Please slow down."),
            ("retry_after", Json.num (1 / 2))], p.1 ≠ "tier") := by
  refine ⟨?_, ?_, by decide, ?_⟩
  · norm_num [RateLimitMiddleware.dispatch, RateLimitMiddleware.get_client_key,
      RateLimitMiddleware.retryAfterOrOne, setHeader, httpOf, c7_req, c7_downstream,
      c7_res, pyInt]
    rfl
  · have hceil : max 1 ⌈(1 : ℚ) / 2⌉ = (1 : ℤ) := by
      have h1 : ⌈(1 : ℚ) / 2⌉ = 1 := by
        rw [Int.ceil_eq_iff]
        norm_num
      rw [h1, max_self]
    rw [hceil]
    rfl
  · intro p hp
    fin_cases hp <;> decide

/-- C7 (amended): a DENIED decision is short-circuited with status 429; the
`Retry-After` header value is the int-truncation of `retry_after` (with 1
substituted only when `retry_after` is absent or exactly zero, via Python
`or`), and the JSON body carries the error marker, a fixed message and the
raw `retry_after` number — but no tier field. -/
theorem C7_denial_response_amended (res : RateLimitResponse) (L W : ℤ)
    (req : Request) (d : HttpResponse) (hd : res.result = .DENIED) :
    ∃ resp, RateLimitMiddleware.dispatch (fun _ _ _ => .ok res) L W req d = .ok resp ∧
      resp.status_code = 429 ∧
      ("Retry-After",
        toString (pyInt (RateLimitMiddleware.retryAfterOrOne res.retry_after))) ∈
        resp.headers ∧
      ("error", Json.str "rate_limit_exceeded") ∈ resp.body ∧
      ("retry_after",
        (match res.retry_after with
         | none => Json.null
         | some r => Json.num r)) ∈ resp.body ∧
      (∀ p ∈ resp.body, p.1 ≠ "tier") := by
  have hne1 : ("X-RateLimit-Limit" : String) = "Retry-After" ↔ False := by
    simp only [iff_false]
    decide
  have hne2 : ("X-RateLimit-Remaining" : String) = "Retry-After" ↔ False := by
    simp only [iff_false]
    decide
  have hne3 : ("X-RateLimit-Reset" : String) = "Retry-After" ↔ False := by
    simp only [iff_false]
    decide
  have hdisp : RateLimitMiddleware.dispatch (fun _ _ _ => .ok res) L W req d =
      .ok { status_code := 429,
            headers := [("X-RateLimit-Limit", toString res.limit),
                        ("X-RateLimit-Remaining", toString res.remaining),
                        ("X-RateLimit-Reset", toString (pyInt res.reset_at)),
                        ("Retry-After",
                          toString (pyInt (RateLimitMiddleware.retryAfterOrOne
                            res.retry_after)))],
            body := [("error", Json.str "rate_limit_exceeded"),
                     ("message", Json.str "Too many requests. Please slow down."),
                     ("retry_after",
                      match res.retry_after with
                      | none => Json.null
                      | some r => Json.num r)] } := by
    simp [RateLimitMiddleware.dispatch, hd, setHeader, hne1, hne2, hne3]
  refine ⟨_, hdisp, rfl, ?_, ?_, ?_, ?_⟩
  · simp
  · simp
  · simp
  · intro p hp
    fin_cases hp
    · decide
    · decide
    · exact (by decide : ("retry_after" : String) ≠ "tier")

/-- C7 witness: the amended statement instantiated on `c7_res`. -/
theorem C7_denial_response_amended_witness :
    c7_res.result = .DENIED ∧
    (∃ resp, RateLimitMiddleware.dispatch (fun _ _ _ => .ok c7_res) 5 60
        c7_req c7_downstream = .ok resp ∧
      resp.status_code = 429 ∧
      ("Retry-After",
        toString (pyInt (RateLimitMiddleware.retryAfterOrOne c7_res.retry_after))) ∈
        resp.headers ∧
      ("error", Json.str "rate_limit_exceeded") ∈ resp.body ∧
      ("retry_after",
        (match c7_res.retry_after with
         | none => Json.null
         | some r => Json.num r)) ∈ resp.body ∧
      (∀ p ∈ resp.body, p.1 ≠ "tier")) :=
  ⟨rfl, C7_denial_response_amended c7_res 5 60 c7_req c7_downstream rfl⟩

/-! ## Claim C8 -/

/-- Transcription of the spec's precedence sentence, for comparison with
the code: the API credential header when PRESENT, otherwise the first
entry of the forwarded-for header when present, otherwise the peer
address, otherwise the literal `ip:unknown`.  (Presence alone decides; the
code instead tests Python truthiness, which also rejects empty values.) -/
def specClientKeyByPresence (r : Request) : String :=
  match r.api_key with
  | some k => "api:" ++ k
  | none =>
    match r.forwarded_for with
    | some f => "ip:" ++ pySplitFirst f
    | none =>
      match r.client with
      | some host => "ip:" ++ host
      | none => "ip:unknown"

/-- C8: the claim says the precedence is decided by header PRESENCE.  The
code tests Python truthiness: a present but empty `X-API-Key` header is
skipped, so the request is classified by its peer address instead of as
`api:`. -/
theorem C8_empty_header_precedence_cex :
    RateLimitMiddleware.get_client_key ⟨some "", none, some "9.9.9.9"⟩ = "ip:9.9.9.9" ∧
    specClientKeyByPresence ⟨some "", none, some "9.9.9.9"⟩ = "api:" ∧
    RateLimitMiddleware.get_client_key ⟨some "", none, some "9.9.9.9"⟩ ≠
      specClientKeyByPresence ⟨some "", none, some "9.9.9.9"⟩ := by
  refine ⟨rfl, rfl, by decide⟩

/-- C8 (amended): the precedence holds with presence strengthened to
"present with a non-empty value": a non-empty API credential header gives
`api:` + credential; otherwise a non-empty forwarded-for header gives
`ip:` + its first comma-separated entry; otherwise the peer address gives
`ip:` + address, and a missing peer gives `ip:unknown`. -/
theorem C8_client_key_precedence_amended (r : Request) :
    (∀ k, r.api_key = some k → k ≠ "" →
      RateLimitMiddleware.get_client_key r = "api:" ++ k) ∧
    (r.api_key.getD "" = "" → ∀ f, r.forwarded_for = some f → f ≠ "" →
      RateLimitMiddleware.get_client_key r = "ip:" ++ pySplitFirst f) ∧
    (r.api_key.getD "" = "" → r.forwarded_for.getD "" = "" →
      ∀ h, r.client = some h →
      RateLimitMiddleware.get_client_key r = "ip:" ++ h) ∧
    (r.api_key.getD "" = "" → r.forwarded_for.getD "" = "" → r.client = none →
      RateLimitMiddleware.get_client_key r = "ip:unknown") := by
  refine ⟨?_, ?_, ?_, ?_⟩
  · intro k hk hne
    simp [RateLimitMiddleware.get_client_key, hk, hne]
  · intro hak f hf hne
    simp [RateLimitMiddleware.get_client_key, hak, hf, hne]
  · intro hak hff h hcl
    simp [RateLimitMiddleware.get_client_key, hak, hff, hcl]
  · intro hak hff hcl
    have : RateLimitMiddleware.get_client_key r = "ip:" ++ "unknown" := by
      simp [RateLimitMiddleware.get_client_key, hak, hff, hcl]
    simpa using this

/-- C8 witness: the amended precedence instantiated on a request with a
non-empty credential header. -/
theorem C8_client_key_precedence_amended_witness :
    ((⟨some "abc", some "10.0.0.1,8.8.8.8", some "127.0.0.1"⟩ : Request).api_key =
      some "abc" ∧ ("abc" : String) ≠ "") ∧
    RateLimitMiddleware.get_client_key
      ⟨some "abc", some "10.0.0.1,8.8.8.8", some "127.0.0.1"⟩ = "api:" ++ "abc" :=
  ⟨⟨rfl, by decide⟩,
    (C8_client_key_precedence_amended
      ⟨some "abc", some "10.0.0.1,8.8.8.8", some "127.0.0.1"⟩).1 "abc" rfl (by decide)⟩

/-! ## Claim C10 -/

theorem cleanup_fst_sorted_sets (now : ℚ) (b : InMemoryBackend) (k : String) :
    ((InMemoryBackend.cleanup_if_expired now b k).1).sorted_sets k =
      if InMemoryBackend.is_expired now b k then none else b.sorted_sets k := by
  unfold InMemoryBackend.cleanup_if_expired
  split_ifs with h <;> simp

theorem pySlice_zero_one (l : List (ℚ × ℚ)) :
    InMemoryBackend.pySlice l 0 1 = l.take 1 := by
  unfold InMemoryBackend.pySlice
  have h0 : ¬ ((0 : ℤ) < 0) := by norm_num
  have h1 : ¬ ((1 : ℤ) < 0) := by norm_num
  have hmin0 : min (0 : ℤ) (l.length : ℤ) = 0 := min_eq_left (Int.natCast_nonneg _)
  by_cases hl : l = []
  · subst hl; simp
  · have hlen : (1 : ℤ) ≤ (l.length : ℤ) := by
      have := List.length_pos.mpr hl
      omega
    dsimp only
    rw [if_neg h0, if_neg h1, hmin0, min_eq_left hlen]
    simp

theorem zrange_zero_zero (now : ℚ) (b : InMemoryBackend) (k : String) :
    (InMemoryBackend.zrange now b k 0 0).1 =
      ((((InMemoryBackend.cleanup_if_expired now b k).1.sorted_sets k).getD []).take 1).map
        (fun e => e.2) := by
  rw [cleanup_fst_sorted_sets]
  cases hex : InMemoryBackend.is_expired now b k with
  | true => simp [InMemoryBackend.zrange, InMemoryBackend.cleanup_if_expired, hex]
  | false =>
    simp only [InMemoryBackend.zrange, InMemoryBackend.cleanup_if_expired, hex,
      Bool.false_eq_true, if_false]
    cases hs : b.sorted_sets k with
    | none => simp
    | some items =>
      cases items with
      | nil => simp
      | cons e t =>
        have h0 : ¬ ((0 : ℤ) < 0) := by norm_num
        simp only [List.isEmpty_cons, Option.getD_some, if_neg h0, Bool.false_eq_true,
          if_false]
        rw [show ((0 : ℤ) + 1) = 1 from rfl, pySlice_zero_one]

theorem zcard_snd (now : ℚ) (b : InMemoryBackend) (k : String) :
    (InMemoryBackend.zcard now b k).2 =
      (InMemoryBackend.cleanup_if_expired now b k).1 := by
  unfold InMemoryBackend.zcard
  dsimp only
  split_ifs <;> rfl

theorem cleanup_entries_subset (now : ℚ) (b : InMemoryBackend) (k : String) :
    ∀ e ∈ (((InMemoryBackend.cleanup_if_expired now b k).1).sorted_sets k).getD [],
      e ∈ (b.sorted_sets k).getD [] := by
  rw [cleanup_fst_sorted_sets]
  split_ifs
  · intro e he; simp at he
  · intro e he; exact he

theorem zrem_entries_subset (now : ℚ) (b : InMemoryBackend) (k : String) (lo hi : ℚ) :
    ∀ e ∈ ((((InMemoryBackend.zremrangebyscore now b k lo hi).2).sorted_sets k).getD []),
      e ∈ ((b.sorted_sets k).getD []) := by
  intro e he
  cases hex : InMemoryBackend.is_expired now b k with
  | true =>
    simp [InMemoryBackend.zremrangebyscore, InMemoryBackend.cleanup_if_expired, hex] at he
  | false =>
    simp only [InMemoryBackend.zremrangebyscore, InMemoryBackend.cleanup_if_expired, hex,
      Bool.false_eq_true, if_false] at he
    cases hs : b.sorted_sets k with
    | none => simp [hs] at he
    | some items =>
      simp only [hs] at he
      simp at he
      simpa using he.1

theorem calculate_retry_after_le (now : ℚ) (b : InMemoryBackend) (k : String) (W : ℤ)
    (hW : 1 ≤ W)
    (hsc : ∀ e ∈ ((b.sorted_sets k).getD []), e.2 ≤ now) :
    SlidingWindowStrategy.calculate_retry_after now b k W ≤ (W : ℚ) := by
  have hWQ : (1 : ℚ) ≤ (W : ℚ) := by exact_mod_cast hW
  unfold SlidingWindowStrategy.calculate_retry_after
  rw [zrange_zero_zero]
  cases hs : (((InMemoryBackend.cleanup_if_expired now b k).1.sorted_sets k).getD []) with
  | nil => simp
  | cons e t =>
    simp only [List.take_succ_cons, List.take_zero, List.map_cons, List.map_nil]
    have hmem : e ∈ (b.sorted_sets k).getD [] :=
      cleanup_entries_subset now b k e (by rw [hs]; exact List.mem_cons_self _ _)
    have he2 : e.2 ≤ now := hsc e hmem
    apply max_le
    · linarith
    · linarith

theorem calculate_retry_after_ge (now : ℚ) (b : InMemoryBackend) (k : String) (W : ℤ)
    (hW : 1 ≤ W) :
    1 / 10 ≤ SlidingWindowStrategy.calculate_retry_after now b k W := by
  have hWQ : (1 : ℚ) ≤ (W : ℚ) := by exact_mod_cast hW
  unfold SlidingWindowStrategy.calculate_retry_after
  cases hs : (InMemoryBackend.zrange now b k 0 0).1 with
  | nil =>
    change 1 / 10 ≤ (W : ℚ)
    linarith
  | cons m t =>
    change 1 / 10 ≤ max (1 / 10) ((m + (W : ℚ)) - now)
    exact le_max_left _ _

/-- C10: on every DENIED sliding-window decision over a stored collection
whose entries all carry scores (equal to their members) at most `now`, the
returned `retry_after` lies in `[0.1, window_seconds]`; and when the
oldest-entry lookup finds the collection empty, `_calculate_retry_after`
returns exactly `window_seconds`. -/
theorem C10_retry_after_bounds (b : InMemoryBackend) (key : String) (L W : ℤ)
    (now : ℚ) (hW : 1 ≤ W)
    (hstate : ∀ e ∈ ((b.sorted_sets ("sw:" ++ key)).getD []),
      e.2 = e.1 ∧ e.1 ≤ now) :
    (∀ resp b2, SlidingWindowStrategy.check now b key L W = (resp, b2) →
      resp.result = .DENIED →
      ∃ r, resp.retry_after = some r ∧ 1 / 10 ≤ r ∧ r ≤ (W : ℚ)) ∧
    ((b.sorted_sets ("sw:" ++ key)).getD [] = [] →
      SlidingWindowStrategy.calculate_retry_after now b ("sw:" ++ key) W = (W : ℚ)) := by
  constructor
  · intro resp b2 h hd
    simp only [SlidingWindowStrategy.check] at h
    split_ifs at h with hcnt
    · rw [Prod.mk.injEq] at h
      obtain ⟨h1, _⟩ := h
      subst h1
      simp at hd
    · rw [Prod.mk.injEq] at h
      obtain ⟨h1, _⟩ := h
      subst h1
      refine ⟨_, rfl, ?_, ?_⟩
      · exact calculate_retry_after_ge now _ ("sw:" ++ key) W hW
      · apply calculate_retry_after_le now _ ("sw:" ++ key) W hW
        intro e he
        rw [zcard_snd] at he
        have h1 := cleanup_entries_subset now _ ("sw:" ++ key) e he
        have h2 := zrem_entries_subset now b ("sw:" ++ key) 0 (now - (W : ℚ)) e h1
        rw [(hstate e h2).1]
        exact (hstate e h2).2
  · intro hempty
    unfold SlidingWindowStrategy.calculate_retry_after
    rw [zrange_zero_zero]
    have hnil : (((InMemoryBackend.cleanup_if_expired now b ("sw:" ++ key)).1.sorted_sets
        ("sw:" ++ key)).getD []) = [] := by
      rw [cleanup_fst_sorted_sets]
      split_ifs
      · simp
      · exact hempty
    rw [hnil]
    simp

/-- C10 witness: the bounds instantiated on a fresh store with limit 0 and
window 60 at `now = 0` (the one stored state on which a fresh store yields
DENIED), and the empty-collection case of `_calculate_retry_after`. -/
theorem C10_retry_after_bounds_witness :
    ((1 : ℤ) ≤ 60 ∧
      (∀ e ∈ ((emptyBackend.sorted_sets ("sw:" ++ "k")).getD []),
        e.2 = e.1 ∧ e.1 ≤ (0 : ℚ)) ∧
      (SlidingWindowStrategy.check 0 emptyBackend "k" 0 60).1.result = .DENIED) ∧
    (∃ r, (SlidingWindowStrategy.check 0 emptyBackend "k" 0 60).1.retry_after = some r ∧
      1 / 10 ≤ r ∧ r ≤ ((60 : ℤ) : ℚ)) ∧
    SlidingWindowStrategy.calculate_retry_after 0 emptyBackend ("sw:" ++ "k") 60 =
      ((60 : ℤ) : ℚ) := by
  have hden : (SlidingWindowStrategy.check 0 emptyBackend "k" 0 60).1.result = .DENIED := by
    norm_num [SlidingWindowStrategy.check, SlidingWindowStrategy.calculate_retry_after,
      InMemoryBackend.zremrangebyscore, InMemoryBackend.zcard, InMemoryBackend.zrange,
      InMemoryBackend.cleanup_if_expired, InMemoryBackend.is_expired, emptyBackend, sw_key_k]
  have hst : ∀ e ∈ ((emptyBackend.sorted_sets ("sw:" ++ "k")).getD []),
      e.2 = e.1 ∧ e.1 ≤ (0 : ℚ) := by
    intro e he
    simp [emptyBackend] at he
  have h := C10_retry_after_bounds emptyBackend "k" 0 60 0 (by norm_num) hst
  exact ⟨⟨by norm_num, hst, hden⟩, h.1 _ _ rfl hden, h.2 (by simp [emptyBackend])⟩

end Sentinel
